import Mathlib

/-!
RBAC bootstrap of the Grafana API server (`pkg/services/k8s/apiserver/rbac.go`).

A shallow embedding of the three `Upsert…` procedures of `BasicRBAC`.

* Kubernetes objects are records whose fields carry the Go field names; a field
  left out of a Go struct literal has Go's zero value (`""`, `nil`, empty list).
* A Go `error` is `Option String` (`none` is `nil`).
* The clientset and the `ExtractClusterRoleBinding` helper are external to the
  repository: they are the fields of `Kube σ`, arbitrary functions over an
  arbitrary cluster state `σ`.  Reads return a result, writes return a result
  and the next cluster state.
* Every call the code makes on those collaborators is appended to a call log by
  the primitive that performs it, so that statements about "which calls are
  made, with which arguments" are statements about the log.
-/

namespace Apiserver

/-! ## Constants (rbac.go, lines 13-18) -/

def GrafanaSystemRBACResourcesName : String := "grafana-system"

def GrafanaSystemManagedByTagKey : String := "managed-by"

def GrafanaSystemManagedByTagValue : String := "grafana-o11y-apiserver"

/-! ## Data model: the fields of the Kubernetes API types the code touches -/

/-- Go `error`: `none` is `nil`, `some msg` a non-nil error. -/
abbrev GoError := Option String

/-- Type `rbacV1.Subject`. -/
structure Subject where
  Kind : String := ""
  APIGroup : String := ""
  Name : String := ""
  Namespace : String := ""
deriving DecidableEq, Repr

/-- Type `rbacV1.RoleRef`. -/
structure RoleRef where
  APIGroup : String := ""
  Kind : String := ""
  Name : String := ""
deriving DecidableEq, Repr

/-- Type `metav1.TypeMeta`. -/
structure TypeMeta where
  Kind : String := ""
  APIVersion : String := ""
deriving DecidableEq, Repr

/-- One record of `metav1.ObjectMeta.ManagedFields`, restricted to what a
cluster role binding's field manager can own here: entries of the subject list. -/
structure ManagedFieldsEntry where
  Manager : String := ""
  Subjects : List Subject := []
deriving DecidableEq, Repr

/-- Type `metav1.ObjectMeta`; `Labels` is the Go map as an association list. -/
structure ObjectMeta where
  Name : String := ""
  Namespace : String := ""
  Labels : List (String × String) := []
  ManagedFields : List ManagedFieldsEntry := []
deriving DecidableEq, Repr

/-- Type `coreV1.ServiceAccount`. -/
structure ServiceAccount where
  TypeMeta : TypeMeta := {}
  ObjectMeta : ObjectMeta := {}
deriving DecidableEq, Repr

/-- Type `rbacV1.PolicyRule`. -/
structure PolicyRule where
  Verbs : List String := []
  APIGroups : List String := []
  Resources : List String := []
deriving DecidableEq, Repr

/-- Type `rbacV1.ClusterRole`. -/
structure ClusterRole where
  TypeMeta : TypeMeta := {}
  ObjectMeta : ObjectMeta := {}
  Rules : List PolicyRule := []
deriving DecidableEq, Repr

/-- Type `rbacV1.ClusterRoleBinding`. -/
structure ClusterRoleBinding where
  TypeMeta : TypeMeta := {}
  ObjectMeta : ObjectMeta := {}
  Subjects : List Subject := []
  RoleRef : RoleRef := {}
deriving DecidableEq, Repr

/-- Type `rbacV1ApplyConfig.SubjectApplyConfiguration`: every field is a Go
pointer, `none` is `nil`. -/
structure SubjectApplyConfiguration where
  Kind : Option String := none
  APIGroup : Option String := none
  Name : Option String := none
  Namespace : Option String := none
deriving DecidableEq, Repr

/-- Type `rbacV1ApplyConfig.RoleRefApplyConfiguration`. -/
structure RoleRefApplyConfiguration where
  APIGroup : Option String := none
  Kind : Option String := none
  Name : Option String := none
deriving DecidableEq, Repr

/-- Type `rbacV1ApplyConfig.ClusterRoleBindingApplyConfiguration`. -/
structure ClusterRoleBindingApplyConfiguration where
  Kind : Option String := none
  APIVersion : Option String := none
  Name : Option String := none
  Labels : List (String × String) := []
  Subjects : List SubjectApplyConfiguration := []
  RoleRef : Option RoleRefApplyConfiguration := none
deriving DecidableEq, Repr

/-- Type `metav1.GetOptions`. -/
structure GetOptions where
  ResourceVersion : String := ""
deriving DecidableEq, Repr

/-- Type `metav1.CreateOptions`. -/
structure CreateOptions where
  DryRun : List String := []
  FieldManager : String := ""
  FieldValidation : String := ""
deriving DecidableEq, Repr

/-- Type `metav1.ApplyOptions`. -/
structure ApplyOptions where
  DryRun : List String := []
  Force : Bool := false
  FieldManager : String := ""
deriving DecidableEq, Repr

/-! ## The external collaborators and the call log -/

/-- One call on an external collaborator, with the arguments it was given.
`Println` is the `fmt.Println("error is:", err)` of line 102. -/
inductive Call where
  | ServiceAccountsGet (ns name : String) (opts : GetOptions)
  | ServiceAccountsCreate (ns : String) (obj : ServiceAccount) (opts : CreateOptions)
  | ClusterRoleBindingsGet (name : String) (opts : GetOptions)
  | ClusterRoleBindingsCreate (obj : ClusterRoleBinding) (opts : CreateOptions)
  | ExtractClusterRoleBinding (obj : ClusterRoleBinding) (fieldManager : String)
  | ClusterRoleBindingsApply (cfg : ClusterRoleBindingApplyConfiguration) (opts : ApplyOptions)
  | ClusterRolesGet (name : String) (opts : GetOptions)
  | ClusterRolesCreate (obj : ClusterRole) (opts : CreateOptions)
  | Println (err : GoError)
deriving DecidableEq, Repr

/-- The collaborators of `BasicRBAC`: the typed clients reached through
`rbac.clientset` and the package function `ExtractClusterRoleBinding`, over a
cluster state `σ`.  A `Get` is a read; `Create` and `Apply` return their error
result (the code discards the returned object) and the next state. -/
structure Kube (σ : Type) where
  ServiceAccountsGet : String → String → GetOptions → σ → Option ServiceAccount × GoError
  ServiceAccountsCreate : String → ServiceAccount → CreateOptions → σ → GoError × σ
  ClusterRoleBindingsGet : String → GetOptions → σ → Option ClusterRoleBinding × GoError
  ClusterRoleBindingsCreate : ClusterRoleBinding → CreateOptions → σ → GoError × σ
  ExtractClusterRoleBinding :
    ClusterRoleBinding → String → Except String ClusterRoleBindingApplyConfiguration
  ClusterRoleBindingsApply :
    ClusterRoleBindingApplyConfiguration → ApplyOptions → σ → GoError × σ
  ClusterRolesGet : String → GetOptions → σ → Option ClusterRole × GoError
  ClusterRolesCreate : ClusterRole → CreateOptions → σ → GoError × σ

/-- The cluster state together with the log of calls made so far. -/
structure Run (σ : Type) where
  state : σ
  calls : List Call

/-- A computation against the cluster that logs its calls. -/
def Prog (σ α : Type) : Type := Run σ → α × Run σ

instance (σ : Type) : Monad (Prog σ) where
  pure a := fun r => (a, r)
  bind m f := fun r => f (m r).1 (m r).2

/-- A read: the state is kept, the call is logged. -/
def Prog.read {σ α : Type} (c : Call) (f : σ → α) : Prog σ α :=
  fun r => (f r.state, { state := r.state, calls := r.calls ++ [c] })

/-- A write: the state is replaced, the call is logged. -/
def Prog.write {σ α : Type} (c : Call) (f : σ → α × σ) : Prog σ α :=
  fun r => ((f r.state).1, { state := (f r.state).2, calls := r.calls ++ [c] })

/-- A call that does not involve the cluster state. -/
def Prog.call {σ α : Type} (c : Call) (a : α) : Prog σ α :=
  fun r => (a, { state := r.state, calls := r.calls ++ [c] })

/-- What one invocation leaves behind: the returned error, the cluster state
and the calls made, in order. -/
structure Outcome (σ : Type) where
  err : GoError
  state : σ
  calls : List Call

/-- Runs a procedure from cluster state `s` with an empty log. -/
def Prog.exec {σ : Type} (p : Prog σ GoError) (s : σ) : Outcome σ :=
  { err := (p { state := s, calls := [] }).1
    state := (p { state := s, calls := [] }).2.state
    calls := (p { state := s, calls := [] }).2.calls }

/-- Go's `pontificate[T any](t T) *T` (line 133): a pointer to its argument. -/
def pontificate {T : Type} (t : T) : Option T := some t

/-- Modelled from the spec: the client-go builder
`ClusterRoleBindingApplyConfiguration.WithSubjects` is library code; the merge
step "augment[s] the extracted configuration's subject list" with the subjects
it is given: they are appended, in order, to `Subjects`, nothing else changes. -/
def ClusterRoleBindingApplyConfiguration.WithSubjects
    (b : ClusterRoleBindingApplyConfiguration) (values : List SubjectApplyConfiguration) :
    ClusterRoleBindingApplyConfiguration :=
  { b with Subjects := b.Subjects ++ values }

/-! ## The procedures (rbac.go, lines 28-131) -/

/-- The struct literal `newSA` of lines 33-43. -/
def newSA : ServiceAccount :=
  { TypeMeta := { APIVersion := "v1" }
    ObjectMeta :=
      { Name := GrafanaSystemRBACResourcesName
        Labels := [(GrafanaSystemManagedByTagKey, GrafanaSystemManagedByTagValue)] } }

/-- The struct literal `newCRB` of lines 59-77. -/
def newCRB : ClusterRoleBinding :=
  { TypeMeta := { APIVersion := "v1" }
    ObjectMeta :=
      { Name := GrafanaSystemRBACResourcesName
        Labels := [(GrafanaSystemManagedByTagKey, GrafanaSystemManagedByTagValue)] }
    RoleRef := { Name := GrafanaSystemRBACResourcesName, Kind := "ClusterRole" }
    Subjects := [{ Name := "system:masters", Kind := "Group" }] }

/-- The struct literal `newCR` of lines 114-124. -/
def newCR : ClusterRole :=
  { TypeMeta := { APIVersion := "v1" }
    ObjectMeta :=
      { Name := GrafanaSystemRBACResourcesName
        Labels := [(GrafanaSystemManagedByTagKey, GrafanaSystemManagedByTagValue)] } }

/-- The statement of lines 89-97, `crbApplyConfig.WithSubjects(&..., &...)`,
as a function of the extracted configuration. -/
def mergeStep (crbApplyConfig : ClusterRoleBindingApplyConfiguration) :
    ClusterRoleBindingApplyConfiguration :=
  crbApplyConfig.WithSubjects
    [ { Name := pontificate GrafanaSystemRBACResourcesName
        Kind := pontificate "ServiceAccount"
        Namespace := pontificate "default"
        APIGroup := pontificate "" },
      { Name := pontificate "system:masters"
        Kind := pontificate "Group" } ]

/-- The `metav1.ApplyOptions` literal of lines 98-101. -/
def applyOptions : ApplyOptions :=
  { FieldManager := GrafanaSystemManagedByTagValue, Force := true }

/-- Procedure `BasicRBAC.UpsertGrafanaSystemServiceAccount` (lines 28-52). -/
def UpsertGrafanaSystemServiceAccount {σ : Type} (k : Kube σ) : Prog σ GoError := do
  let got ← Prog.read (Call.ServiceAccountsGet "default" GrafanaSystemRBACResourcesName {})
    (k.ServiceAccountsGet "default" GrafanaSystemRBACResourcesName {})
  let err := got.2
  if err.isSome then
    let opts : CreateOptions := { FieldManager := GrafanaSystemManagedByTagValue }
    let err ← Prog.write (Call.ServiceAccountsCreate "default" newSA opts)
      (k.ServiceAccountsCreate "default" newSA opts)
    return err
  return none

/-- Procedure `BasicRBAC.UpsertGrafanaSystemClusterRoleBinding` (lines 54-107). -/
def UpsertGrafanaSystemClusterRoleBinding {σ : Type} (k : Kube σ) : Prog σ GoError := do
  let got ← Prog.read (Call.ClusterRoleBindingsGet GrafanaSystemRBACResourcesName {})
    (k.ClusterRoleBindingsGet GrafanaSystemRBACResourcesName {})
  let existing := got.1
  let err := got.2
  if err.isSome then
    let opts : CreateOptions := { FieldManager := GrafanaSystemManagedByTagValue }
    let err ← Prog.write (Call.ClusterRoleBindingsCreate newCRB opts)
      (k.ClusterRoleBindingsCreate newCRB opts)
    return err
  else
    match existing with
    | some existing =>
      let extracted ← Prog.call
        (Call.ExtractClusterRoleBinding existing GrafanaSystemManagedByTagKey)
        (k.ExtractClusterRoleBinding existing GrafanaSystemManagedByTagKey)
      match extracted with
      | Except.error err => return some err
      | Except.ok crbApplyConfig =>
        let crbApplyConfig := mergeStep crbApplyConfig
        let opts : ApplyOptions := applyOptions
        let err ← Prog.write (Call.ClusterRoleBindingsApply crbApplyConfig opts)
          (k.ClusterRoleBindingsApply crbApplyConfig opts)
        Prog.call (Call.Println err) ()
        return err
    | none => return none

/-- Procedure `BasicRBAC.UpsertGrafanaSystemClusterRole` (lines 109-131). -/
def UpsertGrafanaSystemClusterRole {σ : Type} (k : Kube σ) : Prog σ GoError := do
  let got ← Prog.read (Call.ClusterRolesGet GrafanaSystemRBACResourcesName {})
    (k.ClusterRolesGet GrafanaSystemRBACResourcesName {})
  let err := got.2
  if err.isSome then
    let opts : CreateOptions := {}
    let err ← Prog.write (Call.ClusterRolesCreate newCR opts) (k.ClusterRolesCreate newCR opts)
    return err
  return none

/-! ## Reading the call log -/

/-- A create call, on any of the three typed clients. -/
def Call.isCreate : Call → Bool
  | Call.ServiceAccountsCreate _ _ _ => true
  | Call.ClusterRoleBindingsCreate _ _ => true
  | Call.ClusterRolesCreate _ _ => true
  | _ => false

/-- An apply call. -/
def Call.isApply : Call → Bool
  | Call.ClusterRoleBindingsApply _ _ => true
  | _ => false

/-- An extract-apply-configuration call. -/
def Call.isExtract : Call → Bool
  | Call.ExtractClusterRoleBinding _ _ => true
  | _ => false

/-- A call that writes to the cluster.  The clients' `Update`, `Patch` and
`Delete` are never called by the code and have no constructor in `Call`. -/
def Call.isWrite (c : Call) : Bool := c.isCreate || c.isApply

/-- Number of create calls in a log. -/
def createCalls (l : List Call) : Nat := (l.filter Call.isCreate).length

/-- Number of apply calls in a log. -/
def applyCalls (l : List Call) : Nat := (l.filter Call.isApply).length

/-- Number of write calls in a log. -/
def writeCalls (l : List Call) : Nat := (l.filter Call.isWrite).length

/-- The name and label map of the object a create call submits. -/
def Call.createdMeta : Call → Option (String × List (String × String))
  | Call.ServiceAccountsCreate _ obj _ => some (obj.ObjectMeta.Name, obj.ObjectMeta.Labels)
  | Call.ClusterRoleBindingsCreate obj _ => some (obj.ObjectMeta.Name, obj.ObjectMeta.Labels)
  | Call.ClusterRolesCreate obj _ => some (obj.ObjectMeta.Name, obj.ObjectMeta.Labels)
  | _ => none

/-- The Principal as a subject of the binding: kind, name and namespace. -/
def Subject.isPrincipal (x : Subject) : Bool :=
  x.Kind == "ServiceAccount" && x.Name == GrafanaSystemRBACResourcesName &&
    x.Namespace == "default"

/-- The administrative group as a subject of the binding. -/
def Subject.isAdminGroup (x : Subject) : Bool :=
  x.Kind == "Group" && x.Name == "system:masters"

/-! ## A reference cluster

The API server is an external collaborator, not code of the repository.  The
definitions of this section follow the spec's description of it (sections 4.3,
6, 7, 9 and the glossary) and are used only where a statement is about the
cluster state that results from the calls. -/

/-- Modelled from the spec: the API server's store is not repository code.  The
cluster state is the stored objects of the three managed kinds. -/
structure Cluster where
  ServiceAccounts : List ServiceAccount := []
  ClusterRoles : List ClusterRole := []
  ClusterRoleBindings : List ClusterRoleBinding := []
deriving DecidableEq, Repr

/-- Modelled from the spec: the API server is not repository code.  Principal
"get-by-name(namespace, name) -> object|not-found-error". -/
def Cluster.getServiceAccount (ns name : String) (_opts : GetOptions) (c : Cluster) :
    Option ServiceAccount × GoError :=
  match c.ServiceAccounts.find?
      (fun o => o.ObjectMeta.Namespace == ns && o.ObjectMeta.Name == name) with
  | some o => (some o, none)
  | none => (none, some "not found")

/-- Modelled from the spec: the API server is not repository code.  Principal
"create(object, field-manager) -> object|error"; "a create call against an
object that actually exists ... fails".  The object is stored in the namespace
of the typed client. -/
def Cluster.createServiceAccount (ns : String) (obj : ServiceAccount) (_opts : CreateOptions)
    (c : Cluster) : GoError × Cluster :=
  match (c.getServiceAccount ns obj.ObjectMeta.Name {}).1 with
  | some _ => (some "already exists", c)
  | none =>
    (none, { c with
      ServiceAccounts :=
        { obj with ObjectMeta := { obj.ObjectMeta with Namespace := ns } } :: c.ServiceAccounts })

/-- Modelled from the spec: the API server is not repository code.  Privilege
Definition "get-by-name(name) -> object|not-found-error". -/
def Cluster.getClusterRole (name : String) (_opts : GetOptions) (c : Cluster) :
    Option ClusterRole × GoError :=
  match c.ClusterRoles.find? (fun o => o.ObjectMeta.Name == name) with
  | some o => (some o, none)
  | none => (none, some "not found")

/-- Modelled from the spec: the API server is not repository code.  Privilege
Definition "create(object) -> object|error", failing on an existing name. -/
def Cluster.createClusterRole (obj : ClusterRole) (_opts : CreateOptions) (c : Cluster) :
    GoError × Cluster :=
  match (c.getClusterRole obj.ObjectMeta.Name {}).1 with
  | some _ => (some "already exists", c)
  | none => (none, { c with ClusterRoles := obj :: c.ClusterRoles })

/-- Modelled from the spec: the API server is not repository code.  Binding
"get-by-name(name) -> object|not-found-error". -/
def Cluster.getClusterRoleBinding (name : String) (_opts : GetOptions) (c : Cluster) :
    Option ClusterRoleBinding × GoError :=
  match c.ClusterRoleBindings.find? (fun o => o.ObjectMeta.Name == name) with
  | some o => (some o, none)
  | none => (none, some "not found")

/-- Modelled from the spec: the API server is not repository code.  Binding
"create(object, field-manager) -> object|error", failing on an existing name.
The field manager is recorded as the owner of the subjects it wrote ("an
identity string used ... to track which fields of an object a given writer
owns"). -/
def Cluster.createClusterRoleBinding (obj : ClusterRoleBinding) (opts : CreateOptions)
    (c : Cluster) : GoError × Cluster :=
  match (c.getClusterRoleBinding obj.ObjectMeta.Name {}).1 with
  | some _ => (some "already exists", c)
  | none =>
    (none, { c with
      ClusterRoleBindings :=
        { obj with
          ObjectMeta :=
            { obj.ObjectMeta with
              ManagedFields := [{ Manager := opts.FieldManager, Subjects := obj.Subjects }] } }
          :: c.ClusterRoleBindings })

/-- Modelled from the spec: subject identity, "keyed by (kind, name, namespace)
triple" (section 9). -/
def Subject.sameIdentity (a b : Subject) : Bool :=
  a.Kind == b.Kind && a.Name == b.Name && a.Namespace == b.Namespace

/-- A subject of an apply configuration as a subject of the object: a nil
pointer is the empty string. -/
def SubjectApplyConfiguration.toSubject (a : SubjectApplyConfiguration) : Subject :=
  { Kind := a.Kind.getD "", APIGroup := a.APIGroup.getD "", Name := a.Name.getD "",
    Namespace := a.Namespace.getD "" }

/-- A subject of the object as a subject of an apply configuration: an empty
field is left nil. -/
def SubjectApplyConfiguration.ofSubject (x : Subject) : SubjectApplyConfiguration :=
  { Kind := if x.Kind = "" then none else some x.Kind
    APIGroup := if x.APIGroup = "" then none else some x.APIGroup
    Name := if x.Name = "" then none else some x.Name
    Namespace := if x.Namespace = "" then none else some x.Namespace }

/-- Modelled from the spec: the apply protocol's merge of a subject list is not
repository code.  It is the "set-union-by-identity over the subject list" of section
9: a submitted subject is added unless the list already holds one of its
identity; no subject of the live list is removed. -/
def unionByIdentity (live submitted : List Subject) : List Subject :=
  submitted.foldl
    (fun acc x => if acc.any (fun y => Subject.sameIdentity x y) then acc else acc ++ [x]) live

/-- Modelled from the spec: `ExtractClusterRoleBinding` is library code.
"derive a partial apply configuration (a patch document expressing only the
fields owned by this system's field manager) from the currently observed
object, scoped to the ... field-manager identity".  Extraction fails on a
"malformed ... observed-state object": here, ownership records of that manager
naming a subject the object does not have. -/
def Cluster.extractClusterRoleBinding (obj : ClusterRoleBinding) (fieldManager : String) :
    Except String ClusterRoleBindingApplyConfiguration :=
  let owned :=
    (obj.ObjectMeta.ManagedFields.filter (fun e => e.Manager == fieldManager)).flatMap
      (fun e => e.Subjects)
  if owned.all (fun x => obj.Subjects.contains x) then
    Except.ok
      { Kind := some "ClusterRoleBinding"
        APIVersion := some "rbac.authorization.k8s.io/v1"
        Name := some obj.ObjectMeta.Name
        Subjects := owned.map SubjectApplyConfiguration.ofSubject }
  else
    Except.error "malformed managed fields"

/-- Modelled from the spec: the API server's server-side apply is not
repository code.  Binding "apply(patch, field-manager, force) -> object|error", restricted
to the subject list:
* the submitted subjects are merged into the live list by `unionByIdentity`
  ("fields not owned by this field manager (e.g., subjects added by other
  managers) are left untouched");
* with `force` the manager "takes ownership of any field it specifies,
  overriding conflicting ownership claims"; without it a submitted subject
  owned by another manager is an "apply-conflict";
* the configuration must name the object, and the object must exist (the code
  applies only to a binding it has just read). -/
def Cluster.applyClusterRoleBinding (cfg : ClusterRoleBindingApplyConfiguration)
    (opts : ApplyOptions) (c : Cluster) : GoError × Cluster :=
  match cfg.Name with
  | none => (some "name is required", c)
  | some name =>
    match (c.getClusterRoleBinding name {}).1 with
    | none => (some "not found", c)
    | some live =>
      let submitted := cfg.Subjects.map SubjectApplyConfiguration.toSubject
      let claimed := fun (x : Subject) => submitted.any (fun y => Subject.sameIdentity y x)
      let others := live.ObjectMeta.ManagedFields.filter (fun e => e.Manager != opts.FieldManager)
      if !opts.Force && others.any (fun e => e.Subjects.any claimed) then
        (some "conflict", c)
      else
        let subjects := unionByIdentity live.Subjects submitted
        let live' : ClusterRoleBinding :=
          { live with
            Subjects := subjects
            ObjectMeta :=
              { live.ObjectMeta with
                ManagedFields :=
                  { Manager := opts.FieldManager, Subjects := subjects.filter claimed } ::
                    others.map (fun e =>
                      { e with Subjects := e.Subjects.filter (fun x => !claimed x) }) } }
        (none, { c with
          ClusterRoleBindings :=
            live' :: c.ClusterRoleBindings.filter (fun o => o.ObjectMeta.Name != name) })

/-- The reference cluster as the collaborators of `BasicRBAC`. -/
def Cluster.kube : Kube Cluster where
  ServiceAccountsGet := Cluster.getServiceAccount
  ServiceAccountsCreate := Cluster.createServiceAccount
  ClusterRoleBindingsGet := Cluster.getClusterRoleBinding
  ClusterRoleBindingsCreate := Cluster.createClusterRoleBinding
  ExtractClusterRoleBinding := Cluster.extractClusterRoleBinding
  ClusterRoleBindingsApply := Cluster.applyClusterRoleBinding
  ClusterRolesGet := Cluster.getClusterRole
  ClusterRolesCreate := Cluster.createClusterRole

/-- A binding `grafana-system` whose single subject, the group
`external-auditors`, was written by another field manager. -/
def auditedBinding : ClusterRoleBinding :=
  { ObjectMeta :=
      { Name := "grafana-system"
        ManagedFields :=
          [{ Manager := "kubectl",
             Subjects := [{ Kind := "Group", Name := "external-auditors" }] }] }
    Subjects := [{ Kind := "Group", Name := "external-auditors" }]
    RoleRef := { Name := "grafana-system", Kind := "ClusterRole" } }

/-- A cluster holding only `auditedBinding`. -/
def auditedCluster : Cluster := { ClusterRoleBindings := [auditedBinding] }

/-- A binding `grafana-system` that already has both required subjects, owned by
a field manager called `managed-by`. -/
def convergedBinding : ClusterRoleBinding :=
  { ObjectMeta :=
      { Name := "grafana-system"
        ManagedFields :=
          [{ Manager := "managed-by",
             Subjects :=
               [ { Kind := "ServiceAccount", Name := "grafana-system", Namespace := "default" },
                 { Kind := "Group", Name := "system:masters" } ] }] }
    Subjects :=
      [ { Kind := "ServiceAccount", Name := "grafana-system", Namespace := "default" },
        { Kind := "Group", Name := "system:masters" } ]
    RoleRef := { Name := "grafana-system", Kind := "ClusterRole" } }

/-- A cluster holding only `convergedBinding`. -/
def convergedCluster : Cluster := { ClusterRoleBindings := [convergedBinding] }

/-- A binding `grafana-system` whose ownership records are malformed: the
manager `managed-by` is recorded as owning a subject the binding does not have. -/
def malformedBinding : ClusterRoleBinding :=
  { ObjectMeta :=
      { Name := "grafana-system"
        ManagedFields :=
          [{ Manager := "managed-by", Subjects := [{ Kind := "User", Name := "ghost" }] }] }
    Subjects := [{ Kind := "Group", Name := "external-auditors" }]
    RoleRef := { Name := "grafana-system", Kind := "ClusterRole" } }

/-- A cluster holding only `malformedBinding`. -/
def malformedCluster : Cluster := { ClusterRoleBindings := [malformedBinding] }

/-- A cluster in which the service account and the cluster role already exist,
the latter with rules of its own. -/
def provisionedCluster : Cluster :=
  { ServiceAccounts := [{ ObjectMeta := { Name := "grafana-system", Namespace := "default" } }]
    ClusterRoles :=
      [ { ObjectMeta := { Name := "grafana-system" }
          Rules := [{ Verbs := ["get"], APIGroups := [""], Resources := ["pods"] }] } ] }

/-- Two invocations in succession: the second starts from the state the first
left. -/
def twice {σ : Type} (p : Prog σ GoError) (s : σ) : Outcome σ × Outcome σ :=
  (p.exec s, p.exec (p.exec s).state)

/-! ## What each branch does

One lemma per path through each procedure: the calls made, the value returned
and the state left. -/

theorem isSome_of_ne_none {α : Type} {o : Option α} (h : o ≠ none) : o.isSome = true := by
  cases o with
  | none => exact absurd rfl h
  | some a => rfl

/-- The service-account procedure when the read fails. -/
theorem exec_serviceAccount_absent {σ : Type} (k : Kube σ) (s : σ)
    (h : (k.ServiceAccountsGet "default" GrafanaSystemRBACResourcesName {} s).2.isSome = true) :
    ((UpsertGrafanaSystemServiceAccount k).exec s).calls =
        [Call.ServiceAccountsGet "default" GrafanaSystemRBACResourcesName {},
         Call.ServiceAccountsCreate "default" newSA
           { FieldManager := GrafanaSystemManagedByTagValue }] ∧
      ((UpsertGrafanaSystemServiceAccount k).exec s).err =
        (k.ServiceAccountsCreate "default" newSA
          { FieldManager := GrafanaSystemManagedByTagValue } s).1 ∧
      ((UpsertGrafanaSystemServiceAccount k).exec s).state =
        (k.ServiceAccountsCreate "default" newSA
          { FieldManager := GrafanaSystemManagedByTagValue } s).2 := by
  simp [UpsertGrafanaSystemServiceAccount, Prog.exec, Prog.read, Prog.write, bind, pure, h]

/-- The service-account procedure when the read succeeds. -/
theorem exec_serviceAccount_present {σ : Type} (k : Kube σ) (s : σ)
    (h : (k.ServiceAccountsGet "default" GrafanaSystemRBACResourcesName {} s).2 = none) :
    ((UpsertGrafanaSystemServiceAccount k).exec s).calls =
        [Call.ServiceAccountsGet "default" GrafanaSystemRBACResourcesName {}] ∧
      ((UpsertGrafanaSystemServiceAccount k).exec s).err = none ∧
      ((UpsertGrafanaSystemServiceAccount k).exec s).state = s := by
  simp [UpsertGrafanaSystemServiceAccount, Prog.exec, Prog.read, Prog.write, bind, pure, h]

/-- The cluster-role procedure when the read fails. -/
theorem exec_clusterRole_absent {σ : Type} (k : Kube σ) (s : σ)
    (h : (k.ClusterRolesGet GrafanaSystemRBACResourcesName {} s).2.isSome = true) :
    ((UpsertGrafanaSystemClusterRole k).exec s).calls =
        [Call.ClusterRolesGet GrafanaSystemRBACResourcesName {},
         Call.ClusterRolesCreate newCR {}] ∧
      ((UpsertGrafanaSystemClusterRole k).exec s).err = (k.ClusterRolesCreate newCR {} s).1 ∧
      ((UpsertGrafanaSystemClusterRole k).exec s).state = (k.ClusterRolesCreate newCR {} s).2 := by
  simp [UpsertGrafanaSystemClusterRole, Prog.exec, Prog.read, Prog.write, bind, pure, h]

/-- The cluster-role procedure when the read succeeds. -/
theorem exec_clusterRole_present {σ : Type} (k : Kube σ) (s : σ)
    (h : (k.ClusterRolesGet GrafanaSystemRBACResourcesName {} s).2 = none) :
    ((UpsertGrafanaSystemClusterRole k).exec s).calls =
        [Call.ClusterRolesGet GrafanaSystemRBACResourcesName {}] ∧
      ((UpsertGrafanaSystemClusterRole k).exec s).err = none ∧
      ((UpsertGrafanaSystemClusterRole k).exec s).state = s := by
  simp [UpsertGrafanaSystemClusterRole, Prog.exec, Prog.read, Prog.write, bind, pure, h]

/-- The binding procedure when the read fails. -/
theorem exec_binding_absent {σ : Type} (k : Kube σ) (s : σ)
    (h : (k.ClusterRoleBindingsGet GrafanaSystemRBACResourcesName {} s).2.isSome = true) :
    ((UpsertGrafanaSystemClusterRoleBinding k).exec s).calls =
        [Call.ClusterRoleBindingsGet GrafanaSystemRBACResourcesName {},
         Call.ClusterRoleBindingsCreate newCRB
           { FieldManager := GrafanaSystemManagedByTagValue }] ∧
      ((UpsertGrafanaSystemClusterRoleBinding k).exec s).err =
        (k.ClusterRoleBindingsCreate newCRB
          { FieldManager := GrafanaSystemManagedByTagValue } s).1 ∧
      ((UpsertGrafanaSystemClusterRoleBinding k).exec s).state =
        (k.ClusterRoleBindingsCreate newCRB
          { FieldManager := GrafanaSystemManagedByTagValue } s).2 := by
  simp [UpsertGrafanaSystemClusterRoleBinding, Prog.exec, Prog.read, Prog.write, bind, pure, h]

/-- The binding procedure when the read succeeds and extraction fails. -/
theorem exec_binding_extract_error {σ : Type} (k : Kube σ) (s : σ) (b : ClusterRoleBinding)
    (e : String)
    (hget : k.ClusterRoleBindingsGet GrafanaSystemRBACResourcesName {} s = (some b, none))
    (hex : k.ExtractClusterRoleBinding b GrafanaSystemManagedByTagKey = Except.error e) :
    ((UpsertGrafanaSystemClusterRoleBinding k).exec s).calls =
        [Call.ClusterRoleBindingsGet GrafanaSystemRBACResourcesName {},
         Call.ExtractClusterRoleBinding b GrafanaSystemManagedByTagKey] ∧
      ((UpsertGrafanaSystemClusterRoleBinding k).exec s).err = some e ∧
      ((UpsertGrafanaSystemClusterRoleBinding k).exec s).state = s := by
  simp [UpsertGrafanaSystemClusterRoleBinding, Prog.exec, Prog.read, Prog.write, Prog.call,
    bind, pure, hget, hex]

/-- The binding procedure when the read and the extraction succeed. -/
theorem exec_binding_apply {σ : Type} (k : Kube σ) (s : σ) (b : ClusterRoleBinding)
    (cfg : ClusterRoleBindingApplyConfiguration)
    (hget : k.ClusterRoleBindingsGet GrafanaSystemRBACResourcesName {} s = (some b, none))
    (hex : k.ExtractClusterRoleBinding b GrafanaSystemManagedByTagKey = Except.ok cfg) :
    ((UpsertGrafanaSystemClusterRoleBinding k).exec s).calls =
        [Call.ClusterRoleBindingsGet GrafanaSystemRBACResourcesName {},
         Call.ExtractClusterRoleBinding b GrafanaSystemManagedByTagKey,
         Call.ClusterRoleBindingsApply (mergeStep cfg) applyOptions,
         Call.Println (k.ClusterRoleBindingsApply (mergeStep cfg) applyOptions s).1] ∧
      ((UpsertGrafanaSystemClusterRoleBinding k).exec s).err =
        (k.ClusterRoleBindingsApply (mergeStep cfg) applyOptions s).1 ∧
      ((UpsertGrafanaSystemClusterRoleBinding k).exec s).state =
        (k.ClusterRoleBindingsApply (mergeStep cfg) applyOptions s).2 := by
  simp [UpsertGrafanaSystemClusterRoleBinding, Prog.exec, Prog.read, Prog.write, Prog.call,
    bind, pure, hget, hex]

/-! ## The reference cluster's subject merge -/

/-- One step of `unionByIdentity`. -/
theorem unionByIdentity_cons (live : List Subject) (y : Subject) (ys : List Subject) :
    unionByIdentity live (y :: ys) =
      unionByIdentity
        (if live.any (fun z => Subject.sameIdentity y z) then live else live ++ [y]) ys := rfl

/-- A subject has its own identity. -/
theorem sameIdentity_self (x : Subject) : Subject.sameIdentity x x = true := by
  simp [Subject.sameIdentity]

/-- The merge removes no live subject. -/
theorem mem_unionByIdentity_of_mem (live submitted : List Subject) (x : Subject)
    (h : x ∈ live) : x ∈ unionByIdentity live submitted := by
  induction submitted generalizing live with
  | nil => simpa [unionByIdentity] using h
  | cons y ys ih =>
    rw [unionByIdentity_cons]
    apply ih
    split_ifs
    · exact h
    · exact List.mem_append_left _ h

/-- After the merge every submitted subject is present, up to identity. -/
theorem exists_sameIdentity_unionByIdentity (live submitted : List Subject) (y : Subject)
    (h : y ∈ submitted) :
    ∃ x ∈ unionByIdentity live submitted, Subject.sameIdentity y x = true := by
  induction submitted generalizing live with
  | nil => cases h
  | cons z zs ih =>
    rw [unionByIdentity_cons]
    rcases List.mem_cons.mp h with hyz | hmem
    · subst hyz
      by_cases hany : live.any (fun w => Subject.sameIdentity y w) = true
      · rw [if_pos hany]
        obtain ⟨x, hx, hsame⟩ := List.any_eq_true.mp hany
        exact ⟨x, mem_unionByIdentity_of_mem _ _ _ hx, hsame⟩
      · rw [if_neg hany]
        exact ⟨y, mem_unionByIdentity_of_mem _ _ _ (by simp), sameIdentity_self y⟩
    · exact ih _ hmem

/-- The binding procedure when the read returns neither an object nor an error. -/
theorem exec_binding_nil {σ : Type} (k : Kube σ) (s : σ)
    (hget : k.ClusterRoleBindingsGet GrafanaSystemRBACResourcesName {} s = (none, none)) :
    ((UpsertGrafanaSystemClusterRoleBinding k).exec s).calls =
        [Call.ClusterRoleBindingsGet GrafanaSystemRBACResourcesName {}] ∧
      ((UpsertGrafanaSystemClusterRoleBinding k).exec s).err = none ∧
      ((UpsertGrafanaSystemClusterRoleBinding k).exec s).state = s := by
  simp [UpsertGrafanaSystemClusterRoleBinding, Prog.exec, Prog.read, Prog.write, Prog.call,
    bind, pure, hget]

/-! ## The claims -/

/-- C1, as the code has it: when the read returns a binding, the one
extract-apply-configuration call is made with field manager `"managed-by"`, the
label key, which is not `GrafanaSystemManagedByTagValue`; every apply call is
made with field manager `"grafana-o11y-apiserver"` and `Force = true`. -/
theorem extract_field_manager_is_label_key {σ : Type} (k : Kube σ) (s : σ)
    (b : ClusterRoleBinding)
    (hget : k.ClusterRoleBindingsGet GrafanaSystemRBACResourcesName {} s = (some b, none)) :
    ((UpsertGrafanaSystemClusterRoleBinding k).exec s).calls.filter Call.isExtract =
        [Call.ExtractClusterRoleBinding b "managed-by"] ∧
      "managed-by" ≠ GrafanaSystemManagedByTagValue ∧
      ∀ cfg opts,
        Call.ClusterRoleBindingsApply cfg opts ∈
            ((UpsertGrafanaSystemClusterRoleBinding k).exec s).calls →
          opts.FieldManager = "grafana-o11y-apiserver" ∧ opts.Force = true := by
  cases hex : k.ExtractClusterRoleBinding b GrafanaSystemManagedByTagKey with
  | error e =>
    obtain ⟨hc, _, _⟩ := exec_binding_extract_error k s b e hget hex
    rw [hc]
    refine ⟨by simp [Call.isExtract, GrafanaSystemManagedByTagKey], by decide, ?_⟩
    intro cfg opts hmem
    simp at hmem
  | ok cfg0 =>
    obtain ⟨hc, _, _⟩ := exec_binding_apply k s b cfg0 hget hex
    rw [hc]
    refine ⟨by simp [Call.isExtract, GrafanaSystemManagedByTagKey], by decide, ?_⟩
    intro cfg opts hmem
    simp at hmem
    rw [hmem.2]
    exact ⟨rfl, rfl⟩

/-- C4: whenever the read of the binding fails, the procedure reads and then
creates; the object it submits has role reference
`{Name: "grafana-system", Kind: "ClusterRole"}` and the single subject
`{Kind: "Group", Name: "system:masters"}`, hence no `ServiceAccount` subject. -/
theorem binding_absent_branch_creates_group_only {σ : Type} (k : Kube σ) (s : σ)
    (hget : (k.ClusterRoleBindingsGet GrafanaSystemRBACResourcesName {} s).2 ≠ none) :
    ∃ obj opts,
      ((UpsertGrafanaSystemClusterRoleBinding k).exec s).calls =
          [Call.ClusterRoleBindingsGet "grafana-system" {},
           Call.ClusterRoleBindingsCreate obj opts] ∧
        obj.RoleRef = { Name := "grafana-system", Kind := "ClusterRole" } ∧
        obj.Subjects = [{ Kind := "Group", Name := "system:masters" }] ∧
        ∀ x ∈ obj.Subjects, x.Kind ≠ "ServiceAccount" := by
  obtain ⟨hc, _, _⟩ := exec_binding_absent k s (isSome_of_ne_none hget)
  refine ⟨newCRB, { FieldManager := GrafanaSystemManagedByTagValue }, hc, rfl, rfl, ?_⟩
  intro x hx
  have hx' : x = { Kind := "Group", Name := "system:masters" } := by
    simpa [newCRB] using hx
  rw [hx']
  decide

/-- C5: in each of the three procedures, whatever error the read returns, there
is exactly one create call and the value returned is the error result of that
very call, and the state left is the one that call leaves. -/
theorem read_error_leads_to_one_create {σ : Type} (k : Kube σ) (s : σ) :
    ((k.ServiceAccountsGet "default" GrafanaSystemRBACResourcesName {} s).2 ≠ none →
      ∃ obj opts,
        ((UpsertGrafanaSystemServiceAccount k).exec s).calls.filter Call.isCreate =
            [Call.ServiceAccountsCreate "default" obj opts] ∧
          ((UpsertGrafanaSystemServiceAccount k).exec s).err =
            (k.ServiceAccountsCreate "default" obj opts s).1 ∧
          ((UpsertGrafanaSystemServiceAccount k).exec s).state =
            (k.ServiceAccountsCreate "default" obj opts s).2) ∧
    ((k.ClusterRoleBindingsGet GrafanaSystemRBACResourcesName {} s).2 ≠ none →
      ∃ obj opts,
        ((UpsertGrafanaSystemClusterRoleBinding k).exec s).calls.filter Call.isCreate =
            [Call.ClusterRoleBindingsCreate obj opts] ∧
          ((UpsertGrafanaSystemClusterRoleBinding k).exec s).err =
            (k.ClusterRoleBindingsCreate obj opts s).1 ∧
          ((UpsertGrafanaSystemClusterRoleBinding k).exec s).state =
            (k.ClusterRoleBindingsCreate obj opts s).2) ∧
    ((k.ClusterRolesGet GrafanaSystemRBACResourcesName {} s).2 ≠ none →
      ∃ obj opts,
        ((UpsertGrafanaSystemClusterRole k).exec s).calls.filter Call.isCreate =
            [Call.ClusterRolesCreate obj opts] ∧
          ((UpsertGrafanaSystemClusterRole k).exec s).err =
            (k.ClusterRolesCreate obj opts s).1 ∧
          ((UpsertGrafanaSystemClusterRole k).exec s).state =
            (k.ClusterRolesCreate obj opts s).2) := by
  refine ⟨fun h => ?_, fun h => ?_, fun h => ?_⟩
  · obtain ⟨hc, he, hs⟩ := exec_serviceAccount_absent k s (isSome_of_ne_none h)
    exact ⟨_, _, by rw [hc]; simp [Call.isCreate], he, hs⟩
  · obtain ⟨hc, he, hs⟩ := exec_binding_absent k s (isSome_of_ne_none h)
    exact ⟨_, _, by rw [hc]; simp [Call.isCreate], he, hs⟩
  · obtain ⟨hc, he, hs⟩ := exec_clusterRole_absent k s (isSome_of_ne_none h)
    exact ⟨_, _, by rw [hc]; simp [Call.isCreate], he, hs⟩

/-- C6: when the read returns a binding, a failing extraction is returned
unchanged, with no apply call, no create call and the state untouched;
otherwise there is one apply call and the value returned is the error result
of that very call. -/
theorem binding_present_branch_result {σ : Type} (k : Kube σ) (s : σ)
    (b : ClusterRoleBinding)
    (hget : k.ClusterRoleBindingsGet GrafanaSystemRBACResourcesName {} s = (some b, none)) :
    (∀ e, k.ExtractClusterRoleBinding b GrafanaSystemManagedByTagKey = Except.error e →
      ((UpsertGrafanaSystemClusterRoleBinding k).exec s).err = some e ∧
        applyCalls ((UpsertGrafanaSystemClusterRoleBinding k).exec s).calls = 0 ∧
        createCalls ((UpsertGrafanaSystemClusterRoleBinding k).exec s).calls = 0 ∧
        ((UpsertGrafanaSystemClusterRoleBinding k).exec s).state = s) ∧
    (∀ cfg, k.ExtractClusterRoleBinding b GrafanaSystemManagedByTagKey = Except.ok cfg →
      ∃ cfg' opts,
        ((UpsertGrafanaSystemClusterRoleBinding k).exec s).calls.filter Call.isApply =
            [Call.ClusterRoleBindingsApply cfg' opts] ∧
          ((UpsertGrafanaSystemClusterRoleBinding k).exec s).err =
            (k.ClusterRoleBindingsApply cfg' opts s).1) := by
  refine ⟨fun e hex => ?_, fun cfg hex => ?_⟩
  · obtain ⟨hc, he, hs⟩ := exec_binding_extract_error k s b e hget hex
    refine ⟨he, ?_, ?_, hs⟩
    · rw [hc]; simp [applyCalls, Call.isApply]
    · rw [hc]; simp [createCalls, Call.isCreate]
  · obtain ⟨hc, he, _⟩ := exec_binding_apply k s b cfg hget hex
    exact ⟨_, _, by rw [hc]; simp [Call.isApply], he⟩

/-- C7: in the cluster-role and the service-account procedures, whenever the
read succeeds, whatever object it returns, no write call is made, the state is
left as it was and `nil` is returned. -/
theorem no_write_when_present {σ : Type} (k : Kube σ) (s : σ) :
    ((k.ClusterRolesGet GrafanaSystemRBACResourcesName {} s).2 = none →
      writeCalls ((UpsertGrafanaSystemClusterRole k).exec s).calls = 0 ∧
        ((UpsertGrafanaSystemClusterRole k).exec s).state = s ∧
        ((UpsertGrafanaSystemClusterRole k).exec s).err = none) ∧
    ((k.ServiceAccountsGet "default" GrafanaSystemRBACResourcesName {} s).2 = none →
      writeCalls ((UpsertGrafanaSystemServiceAccount k).exec s).calls = 0 ∧
        ((UpsertGrafanaSystemServiceAccount k).exec s).state = s ∧
        ((UpsertGrafanaSystemServiceAccount k).exec s).err = none) := by
  refine ⟨fun h => ?_, fun h => ?_⟩
  · obtain ⟨hc, he, hs⟩ := exec_clusterRole_present k s h
    exact ⟨by rw [hc]; simp [writeCalls, Call.isWrite, Call.isCreate, Call.isApply], hs, he⟩
  · obtain ⟨hc, he, hs⟩ := exec_serviceAccount_present k s h
    exact ⟨by rw [hc]; simp [writeCalls, Call.isWrite, Call.isCreate, Call.isApply], hs, he⟩

/-- C8: when the read returns a binding and the extraction succeeds, exactly one
apply call and no create call is made, whatever the observed subjects. -/
theorem binding_present_branch_one_apply {σ : Type} (k : Kube σ) (s : σ)
    (b : ClusterRoleBinding) (cfg : ClusterRoleBindingApplyConfiguration)
    (hget : k.ClusterRoleBindingsGet GrafanaSystemRBACResourcesName {} s = (some b, none))
    (hex : k.ExtractClusterRoleBinding b GrafanaSystemManagedByTagKey = Except.ok cfg) :
    applyCalls ((UpsertGrafanaSystemClusterRoleBinding k).exec s).calls = 1 ∧
      createCalls ((UpsertGrafanaSystemClusterRoleBinding k).exec s).calls = 0 := by
  obtain ⟨hc, _, _⟩ := exec_binding_apply k s b cfg hget hex
  rw [hc]
  simp [applyCalls, createCalls, Call.isApply, Call.isCreate]

/-- C9: every create call made by any of the three procedures, from any states,
submits an object named `"grafana-system"` whose label map is exactly
`managed-by = grafana-o11y-apiserver`. -/
theorem created_objects_carry_ownership_label {σ : Type} (k : Kube σ) (s₁ s₂ s₃ : σ)
    (c : Call)
    (hmem : c ∈ ((UpsertGrafanaSystemServiceAccount k).exec s₁).calls ++
        ((UpsertGrafanaSystemClusterRole k).exec s₂).calls ++
        ((UpsertGrafanaSystemClusterRoleBinding k).exec s₃).calls)
    (hcreate : c.isCreate = true) :
    c.createdMeta = some ("grafana-system", [("managed-by", "grafana-o11y-apiserver")]) := by
  rcases List.mem_append.mp hmem with h12 | h3
  · rcases List.mem_append.mp h12 with h1 | h2
    · cases hg : (k.ServiceAccountsGet "default" GrafanaSystemRBACResourcesName {} s₁).2 with
      | none =>
        rw [(exec_serviceAccount_present k s₁ hg).1] at h1
        simp at h1
        rw [h1] at hcreate
        simp [Call.isCreate] at hcreate
      | some e =>
        rw [(exec_serviceAccount_absent k s₁ (by rw [hg]; rfl)).1] at h1
        simp at h1
        rcases h1 with h1 | h1
        · rw [h1] at hcreate
          simp [Call.isCreate] at hcreate
        · rw [h1]; rfl
    · cases hg : (k.ClusterRolesGet GrafanaSystemRBACResourcesName {} s₂).2 with
      | none =>
        rw [(exec_clusterRole_present k s₂ hg).1] at h2
        simp at h2
        rw [h2] at hcreate
        simp [Call.isCreate] at hcreate
      | some e =>
        rw [(exec_clusterRole_absent k s₂ (by rw [hg]; rfl)).1] at h2
        simp at h2
        rcases h2 with h2 | h2
        · rw [h2] at hcreate
          simp [Call.isCreate] at hcreate
        · rw [h2]; rfl
  · cases hg : k.ClusterRoleBindingsGet GrafanaSystemRBACResourcesName {} s₃ with
    | mk existing err =>
      cases err with
      | some e =>
        rw [(exec_binding_absent k s₃ (by rw [hg]; rfl)).1] at h3
        simp at h3
        rcases h3 with h3 | h3
        · rw [h3] at hcreate
          simp [Call.isCreate] at hcreate
        · rw [h3]; rfl
      | none =>
        cases existing with
        | none =>
          rw [(exec_binding_nil k s₃ hg).1] at h3
          simp at h3
          rw [h3] at hcreate
          simp [Call.isCreate] at hcreate
        | some b =>
          cases hex : k.ExtractClusterRoleBinding b GrafanaSystemManagedByTagKey with
          | error e =>
            rw [(exec_binding_extract_error k s₃ b e hg hex).1] at h3
            simp at h3
            rcases h3 with h3 | h3 <;>
              · rw [h3] at hcreate
                simp [Call.isCreate] at hcreate
          | ok cfg =>
            rw [(exec_binding_apply k s₃ b cfg hg hex).1] at h3
            simp at h3
            rcases h3 with h3 | h3 | h3 | h3 <;>
              · rw [h3] at hcreate
                simp [Call.isCreate] at hcreate

/-- C10: when the read returns a binding and the extraction returns a
configuration with subject list `S`, the one apply call submits a configuration
whose subject list is `S` followed by the `ServiceAccount` subject
(`grafana-system`, namespace `default`, empty API group) and the `Group`
subject `system:masters` (namespace and API group nil), of length `|S| + 2`
whatever `S` holds; every other field is the extracted one. -/
theorem merge_step_appends_two_subjects {σ : Type} (k : Kube σ) (s : σ)
    (b : ClusterRoleBinding) (cfg : ClusterRoleBindingApplyConfiguration)
    (hget : k.ClusterRoleBindingsGet GrafanaSystemRBACResourcesName {} s = (some b, none))
    (hex : k.ExtractClusterRoleBinding b GrafanaSystemManagedByTagKey = Except.ok cfg) :
    ∃ cfg' opts,
      ((UpsertGrafanaSystemClusterRoleBinding k).exec s).calls.filter Call.isApply =
          [Call.ClusterRoleBindingsApply cfg' opts] ∧
        cfg'.Subjects = cfg.Subjects ++
          [ { Kind := some "ServiceAccount", Name := some "grafana-system",
              Namespace := some "default", APIGroup := some "" },
            { Kind := some "Group", Name := some "system:masters",
              Namespace := none, APIGroup := none } ] ∧
        cfg'.Subjects.length = cfg.Subjects.length + 2 ∧
        cfg'.Kind = cfg.Kind ∧ cfg'.APIVersion = cfg.APIVersion ∧ cfg'.Name = cfg.Name ∧
        cfg'.Labels = cfg.Labels ∧ cfg'.RoleRef = cfg.RoleRef := by
  obtain ⟨hc, _, _⟩ := exec_binding_apply k s b cfg hget hex
  refine ⟨mergeStep cfg, applyOptions, by rw [hc]; simp [Call.isApply], rfl, ?_,
    rfl, rfl, rfl, rfl, rfl⟩
  simp [mergeStep, ClusterRoleBindingApplyConfiguration.WithSubjects]

/-! ## The reference cluster's binding store -/

/-- A successful read of a binding returns the stored object of that name. -/
theorem find_of_getClusterRoleBinding (c : Cluster) (name : String) (b : ClusterRoleBinding)
    (h : c.getClusterRoleBinding name {} = (some b, none)) :
    c.ClusterRoleBindings.find? (fun o => o.ObjectMeta.Name == name) = some b := by
  unfold Cluster.getClusterRoleBinding at h
  cases hf : c.ClusterRoleBindings.find? (fun o => o.ObjectMeta.Name == name) with
  | none => rw [hf] at h; simp at h
  | some o => rw [hf] at h; simp at h; rw [h]

/-- A forced apply to a stored binding succeeds; the binding read afterwards has
the live subjects merged with the submitted ones. -/
theorem applyClusterRoleBinding_forced (c : Cluster) (name : String)
    (live : ClusterRoleBinding) (cfg : ClusterRoleBindingApplyConfiguration)
    (opts : ApplyOptions) (hname : cfg.Name = some name)
    (hlive : c.ClusterRoleBindings.find? (fun o => o.ObjectMeta.Name == name) = some live)
    (hforce : opts.Force = true) :
    (Cluster.applyClusterRoleBinding cfg opts c).1 = none ∧
      ∃ b', Cluster.getClusterRoleBinding name {} (Cluster.applyClusterRoleBinding cfg opts c).2 =
          (some b', none) ∧
        b'.Subjects =
          unionByIdentity live.Subjects
            (cfg.Subjects.map SubjectApplyConfiguration.toSubject) := by
  have hn : live.ObjectMeta.Name = name := by
    have := List.find?_some hlive
    simpa using this
  constructor
  · simp [Cluster.applyClusterRoleBinding, hname, Cluster.getClusterRoleBinding, hlive, hforce]
  · simp [Cluster.applyClusterRoleBinding, hname, Cluster.getClusterRoleBinding, hlive, hforce, hn]

/-- What the reference cluster's extraction returns names the observed object. -/
theorem extractClusterRoleBinding_name (b : ClusterRoleBinding) (fieldManager : String)
    (cfg : ClusterRoleBindingApplyConfiguration)
    (h : Cluster.extractClusterRoleBinding b fieldManager = Except.ok cfg) :
    cfg.Name = some b.ObjectMeta.Name := by
  unfold Cluster.extractClusterRoleBinding at h
  dsimp only at h
  split_ifs at h
  injection h with h
  rw [← h]

/-- C2, on the reference cluster: whenever the binding `grafana-system` exists
and the procedure succeeds, the binding read afterwards still has every subject
it had, and has a `ServiceAccount` subject `grafana-system` in namespace
`default` and a `Group` subject `system:masters`. -/
theorem subject_merge_is_non_destructive (c : Cluster) (b : ClusterRoleBinding)
    (hget : Cluster.getClusterRoleBinding GrafanaSystemRBACResourcesName {} c = (some b, none))
    (hok : ((UpsertGrafanaSystemClusterRoleBinding Cluster.kube).exec c).err = none) :
    ∃ b',
      Cluster.getClusterRoleBinding "grafana-system" {}
          ((UpsertGrafanaSystemClusterRoleBinding Cluster.kube).exec c).state = (some b', none) ∧
        (∀ x ∈ b.Subjects, x ∈ b'.Subjects) ∧
        (∃ x ∈ b'.Subjects,
          x.Kind = "ServiceAccount" ∧ x.Name = "grafana-system" ∧ x.Namespace = "default") ∧
        (∃ x ∈ b'.Subjects, x.Kind = "Group" ∧ x.Name = "system:masters") := by
  have hfind := find_of_getClusterRoleBinding c _ b hget
  have hname : b.ObjectMeta.Name = GrafanaSystemRBACResourcesName := by
    have := List.find?_some hfind
    simpa using this
  cases hex : Cluster.extractClusterRoleBinding b GrafanaSystemManagedByTagKey with
  | error e =>
    have he := (exec_binding_extract_error Cluster.kube c b e hget hex).2.1
    rw [he] at hok
    cases hok
  | ok cfg =>
    obtain ⟨_, _, hs⟩ := exec_binding_apply Cluster.kube c b cfg hget hex
    have hcfg : (mergeStep cfg).Name = some GrafanaSystemRBACResourcesName := by
      rw [← hname]
      exact extractClusterRoleBinding_name b _ cfg hex
    obtain ⟨_, b', hget', hsub⟩ :=
      applyClusterRoleBinding_forced c _ b (mergeStep cfg) applyOptions hcfg hfind rfl
    refine ⟨b', ?_, ?_, ?_, ?_⟩
    · rw [hs]
      exact hget'
    · intro x hx
      rw [hsub]
      exact mem_unionByIdentity_of_mem _ _ x hx
    · obtain ⟨x, hx, hsame⟩ :=
        exists_sameIdentity_unionByIdentity b.Subjects
          ((mergeStep cfg).Subjects.map SubjectApplyConfiguration.toSubject)
          { Kind := "ServiceAccount", Name := "grafana-system", Namespace := "default" }
          (by simp [mergeStep, ClusterRoleBindingApplyConfiguration.WithSubjects,
                SubjectApplyConfiguration.toSubject, pontificate,
                GrafanaSystemRBACResourcesName])
      refine ⟨x, by rw [hsub]; exact hx, ?_⟩
      simp [Subject.sameIdentity] at hsame
      exact ⟨hsame.1.1.symm, hsame.1.2.symm, hsame.2.symm⟩
    · obtain ⟨x, hx, hsame⟩ :=
        exists_sameIdentity_unionByIdentity b.Subjects
          ((mergeStep cfg).Subjects.map SubjectApplyConfiguration.toSubject)
          { Kind := "Group", Name := "system:masters" }
          (by simp [mergeStep, ClusterRoleBindingApplyConfiguration.WithSubjects,
                SubjectApplyConfiguration.toSubject, pontificate])
      refine ⟨x, by rw [hsub]; exact hx, ?_⟩
      simp [Subject.sameIdentity] at hsame
      exact ⟨hsame.1.1.symm, hsame.1.2.symm⟩

/-- C3, evaluated on the reference cluster from the empty state.  For the
binding, the first read fails, the two runs make one create call and one apply
call and both succeed, but the second run changes the state: the created binding has the single subject
`system:masters`, and the second run adds the `ServiceAccount` subject.  For
the service account and the cluster role the two runs make one create call and
the second run leaves the state as the first left it. -/
theorem second_binding_run_changes_state :
    ((Cluster.kube.ClusterRoleBindingsGet GrafanaSystemRBACResourcesName {} {}).2 =
        some "not found" ∧
      createCalls ((twice (UpsertGrafanaSystemClusterRoleBinding Cluster.kube) {}).1.calls ++
          (twice (UpsertGrafanaSystemClusterRoleBinding Cluster.kube) {}).2.calls) = 1 ∧
      applyCalls ((twice (UpsertGrafanaSystemClusterRoleBinding Cluster.kube) {}).1.calls ++
          (twice (UpsertGrafanaSystemClusterRoleBinding Cluster.kube) {}).2.calls) = 1 ∧
      (twice (UpsertGrafanaSystemClusterRoleBinding Cluster.kube) {}).1.err = none ∧
      (twice (UpsertGrafanaSystemClusterRoleBinding Cluster.kube) {}).2.err = none ∧
      (twice (UpsertGrafanaSystemClusterRoleBinding Cluster.kube) {}).2.state ≠
        (twice (UpsertGrafanaSystemClusterRoleBinding Cluster.kube) {}).1.state ∧
      (twice (UpsertGrafanaSystemClusterRoleBinding Cluster.kube)
          {}).1.state.ClusterRoleBindings.map (fun o => o.Subjects) =
        [[{ Kind := "Group", Name := "system:masters" }]] ∧
      (twice (UpsertGrafanaSystemClusterRoleBinding Cluster.kube)
          {}).2.state.ClusterRoleBindings.map (fun o => o.Subjects) =
        [[{ Kind := "Group", Name := "system:masters" },
          { Kind := "ServiceAccount", Name := "grafana-system", Namespace := "default" }]]) ∧
    (createCalls ((twice (UpsertGrafanaSystemServiceAccount Cluster.kube) {}).1.calls ++
          (twice (UpsertGrafanaSystemServiceAccount Cluster.kube) {}).2.calls) = 1 ∧
      (twice (UpsertGrafanaSystemServiceAccount Cluster.kube) {}).2.state =
        (twice (UpsertGrafanaSystemServiceAccount Cluster.kube) {}).1.state) ∧
    (createCalls ((twice (UpsertGrafanaSystemClusterRole Cluster.kube) {}).1.calls ++
          (twice (UpsertGrafanaSystemClusterRole Cluster.kube) {}).2.calls) = 1 ∧
      (twice (UpsertGrafanaSystemClusterRole Cluster.kube) {}).2.state =
        (twice (UpsertGrafanaSystemClusterRole Cluster.kube) {}).1.state) := by
  decide

/-! ## Witnesses -/

/-- C1 at `auditedCluster`: the read returns `auditedBinding` and the extract
call names the field manager `"managed-by"`. -/
theorem extract_field_manager_is_label_key_witness :
    Cluster.kube.ClusterRoleBindingsGet GrafanaSystemRBACResourcesName {} auditedCluster =
        (some auditedBinding, none) ∧
      ((UpsertGrafanaSystemClusterRoleBinding Cluster.kube).exec auditedCluster).calls.filter
          Call.isExtract =
        [Call.ExtractClusterRoleBinding auditedBinding "managed-by"] ∧
      "managed-by" ≠ GrafanaSystemManagedByTagValue :=
  ⟨by decide,
    (extract_field_manager_is_label_key Cluster.kube auditedCluster auditedBinding
      (by decide)).1,
    (extract_field_manager_is_label_key Cluster.kube auditedCluster auditedBinding
      (by decide)).2.1⟩

/-- C2 at `auditedCluster`: the binding exists with the single subject
`external-auditors`, the procedure succeeds, and the binding read afterwards has
that subject, the Principal and the administrative group. -/
theorem subject_merge_is_non_destructive_witness :
    Cluster.getClusterRoleBinding GrafanaSystemRBACResourcesName {} auditedCluster =
        (some auditedBinding, none) ∧
      ((UpsertGrafanaSystemClusterRoleBinding Cluster.kube).exec auditedCluster).err = none ∧
      ∃ b',
        Cluster.getClusterRoleBinding "grafana-system" {}
            ((UpsertGrafanaSystemClusterRoleBinding Cluster.kube).exec auditedCluster).state =
          (some b', none) ∧
        (∀ x ∈ auditedBinding.Subjects, x ∈ b'.Subjects) ∧
        (∃ x ∈ b'.Subjects,
          x.Kind = "ServiceAccount" ∧ x.Name = "grafana-system" ∧ x.Namespace = "default") ∧
        (∃ x ∈ b'.Subjects, x.Kind = "Group" ∧ x.Name = "system:masters") :=
  ⟨by decide, by decide,
    subject_merge_is_non_destructive auditedCluster auditedBinding (by decide) (by decide)⟩

/-- C4 at the empty cluster: the read fails and the binding is created with the
group subject only. -/
theorem binding_absent_branch_creates_group_only_witness :
    (Cluster.kube.ClusterRoleBindingsGet GrafanaSystemRBACResourcesName {} {}).2 ≠ none ∧
      ∃ obj opts,
        ((UpsertGrafanaSystemClusterRoleBinding Cluster.kube).exec {}).calls =
            [Call.ClusterRoleBindingsGet "grafana-system" {},
             Call.ClusterRoleBindingsCreate obj opts] ∧
          obj.RoleRef = { Name := "grafana-system", Kind := "ClusterRole" } ∧
          obj.Subjects = [{ Kind := "Group", Name := "system:masters" }] ∧
          ∀ x ∈ obj.Subjects, x.Kind ≠ "ServiceAccount" :=
  ⟨by decide, binding_absent_branch_creates_group_only Cluster.kube {} (by decide)⟩

/-- C5 at the empty cluster: each of the three reads fails with "not found", and
each procedure makes its one create call and returns that call's result. -/
theorem read_error_leads_to_one_create_witness :
    ((Cluster.kube.ServiceAccountsGet "default" GrafanaSystemRBACResourcesName {} {}).2 =
        some "not found" ∧
      ∃ obj opts,
        ((UpsertGrafanaSystemServiceAccount Cluster.kube).exec {}).calls.filter Call.isCreate =
            [Call.ServiceAccountsCreate "default" obj opts] ∧
          ((UpsertGrafanaSystemServiceAccount Cluster.kube).exec {}).err =
            (Cluster.kube.ServiceAccountsCreate "default" obj opts {}).1 ∧
          ((UpsertGrafanaSystemServiceAccount Cluster.kube).exec {}).state =
            (Cluster.kube.ServiceAccountsCreate "default" obj opts {}).2) ∧
    ((Cluster.kube.ClusterRoleBindingsGet GrafanaSystemRBACResourcesName {} {}).2 =
        some "not found" ∧
      ∃ obj opts,
        ((UpsertGrafanaSystemClusterRoleBinding Cluster.kube).exec {}).calls.filter
            Call.isCreate =
            [Call.ClusterRoleBindingsCreate obj opts] ∧
          ((UpsertGrafanaSystemClusterRoleBinding Cluster.kube).exec {}).err =
            (Cluster.kube.ClusterRoleBindingsCreate obj opts {}).1 ∧
          ((UpsertGrafanaSystemClusterRoleBinding Cluster.kube).exec {}).state =
            (Cluster.kube.ClusterRoleBindingsCreate obj opts {}).2) ∧
    ((Cluster.kube.ClusterRolesGet GrafanaSystemRBACResourcesName {} {}).2 =
        some "not found" ∧
      ∃ obj opts,
        ((UpsertGrafanaSystemClusterRole Cluster.kube).exec {}).calls.filter Call.isCreate =
            [Call.ClusterRolesCreate obj opts] ∧
          ((UpsertGrafanaSystemClusterRole Cluster.kube).exec {}).err =
            (Cluster.kube.ClusterRolesCreate obj opts {}).1 ∧
          ((UpsertGrafanaSystemClusterRole Cluster.kube).exec {}).state =
            (Cluster.kube.ClusterRolesCreate obj opts {}).2) :=
  ⟨⟨by decide, (read_error_leads_to_one_create Cluster.kube {}).1 (by decide)⟩,
    ⟨by decide, (read_error_leads_to_one_create Cluster.kube {}).2.1 (by decide)⟩,
    ⟨by decide, (read_error_leads_to_one_create Cluster.kube {}).2.2 (by decide)⟩⟩

/-- C6 at `malformedCluster`, where the extraction fails and its error is
returned with no apply and no create call, and at `auditedCluster`, where the
extraction succeeds and the result of the one apply call is returned. -/
theorem binding_present_branch_result_witness :
    (Cluster.kube.ClusterRoleBindingsGet GrafanaSystemRBACResourcesName {} malformedCluster =
        (some malformedBinding, none) ∧
      Cluster.kube.ExtractClusterRoleBinding malformedBinding GrafanaSystemManagedByTagKey =
        Except.error "malformed managed fields" ∧
      ((UpsertGrafanaSystemClusterRoleBinding Cluster.kube).exec malformedCluster).err =
        some "malformed managed fields" ∧
      applyCalls ((UpsertGrafanaSystemClusterRoleBinding Cluster.kube).exec
        malformedCluster).calls = 0 ∧
      createCalls ((UpsertGrafanaSystemClusterRoleBinding Cluster.kube).exec
        malformedCluster).calls = 0 ∧
      ((UpsertGrafanaSystemClusterRoleBinding Cluster.kube).exec malformedCluster).state =
        malformedCluster) ∧
    (Cluster.kube.ClusterRoleBindingsGet GrafanaSystemRBACResourcesName {} auditedCluster =
        (some auditedBinding, none) ∧
      Cluster.kube.ExtractClusterRoleBinding auditedBinding GrafanaSystemManagedByTagKey =
        Except.ok
          { Kind := some "ClusterRoleBinding", APIVersion := some "rbac.authorization.k8s.io/v1",
            Name := some "grafana-system" } ∧
      ∃ cfg' opts,
        ((UpsertGrafanaSystemClusterRoleBinding Cluster.kube).exec auditedCluster).calls.filter
            Call.isApply =
            [Call.ClusterRoleBindingsApply cfg' opts] ∧
          ((UpsertGrafanaSystemClusterRoleBinding Cluster.kube).exec auditedCluster).err =
            (Cluster.kube.ClusterRoleBindingsApply cfg' opts auditedCluster).1) :=
  ⟨⟨by decide, rfl,
      (binding_present_branch_result Cluster.kube malformedCluster malformedBinding
        (by decide)).1 _ rfl⟩,
    ⟨by decide, rfl,
      (binding_present_branch_result Cluster.kube auditedCluster auditedBinding
        (by decide)).2 _ rfl⟩⟩

/-- C7 at `provisionedCluster`: both reads succeed, the cluster role has rules
of its own, and neither procedure writes. -/
theorem no_write_when_present_witness :
    ((Cluster.kube.ClusterRolesGet GrafanaSystemRBACResourcesName {} provisionedCluster).2 =
        none ∧
      writeCalls ((UpsertGrafanaSystemClusterRole Cluster.kube).exec provisionedCluster).calls
        = 0 ∧
      ((UpsertGrafanaSystemClusterRole Cluster.kube).exec provisionedCluster).state =
        provisionedCluster ∧
      ((UpsertGrafanaSystemClusterRole Cluster.kube).exec provisionedCluster).err = none) ∧
    ((Cluster.kube.ServiceAccountsGet "default" GrafanaSystemRBACResourcesName {}
        provisionedCluster).2 = none ∧
      writeCalls ((UpsertGrafanaSystemServiceAccount Cluster.kube).exec
        provisionedCluster).calls = 0 ∧
      ((UpsertGrafanaSystemServiceAccount Cluster.kube).exec provisionedCluster).state =
        provisionedCluster ∧
      ((UpsertGrafanaSystemServiceAccount Cluster.kube).exec provisionedCluster).err = none) :=
  ⟨⟨by decide, (no_write_when_present Cluster.kube provisionedCluster).1 (by decide)⟩,
    ⟨by decide, (no_write_when_present Cluster.kube provisionedCluster).2 (by decide)⟩⟩

/-- C8 at `convergedCluster`, whose binding already has both required subjects:
one apply call, no create call. -/
theorem binding_present_branch_one_apply_witness :
    Cluster.kube.ClusterRoleBindingsGet GrafanaSystemRBACResourcesName {} convergedCluster =
        (some convergedBinding, none) ∧
      (∃ x ∈ convergedBinding.Subjects, x.isPrincipal = true) ∧
      (∃ x ∈ convergedBinding.Subjects, x.isAdminGroup = true) ∧
      applyCalls ((UpsertGrafanaSystemClusterRoleBinding Cluster.kube).exec
        convergedCluster).calls = 1 ∧
      createCalls ((UpsertGrafanaSystemClusterRoleBinding Cluster.kube).exec
        convergedCluster).calls = 0 :=
  ⟨by decide, by decide, by decide,
    binding_present_branch_one_apply Cluster.kube convergedCluster convergedBinding
      { Kind := some "ClusterRoleBinding", APIVersion := some "rbac.authorization.k8s.io/v1",
        Name := some "grafana-system",
        Subjects :=
          [ { Kind := some "ServiceAccount", Name := some "grafana-system",
              Namespace := some "default" },
            { Kind := some "Group", Name := some "system:masters" } ] }
      (by decide) rfl⟩

/-- C9 at the empty cluster: the create call of the service-account procedure
is in the log and submits the name and the label map. -/
theorem created_objects_carry_ownership_label_witness :
    Call.ServiceAccountsCreate "default" newSA { FieldManager := "grafana-o11y-apiserver" } ∈
        ((UpsertGrafanaSystemServiceAccount Cluster.kube).exec {}).calls ++
          ((UpsertGrafanaSystemClusterRole Cluster.kube).exec {}).calls ++
          ((UpsertGrafanaSystemClusterRoleBinding Cluster.kube).exec {}).calls ∧
      (Call.ServiceAccountsCreate "default" newSA
        { FieldManager := "grafana-o11y-apiserver" }).createdMeta =
        some ("grafana-system", [("managed-by", "grafana-o11y-apiserver")]) :=
  ⟨by decide,
    created_objects_carry_ownership_label Cluster.kube {} {} {}
      (Call.ServiceAccountsCreate "default" newSA { FieldManager := "grafana-o11y-apiserver" })
      (by decide) rfl⟩

/-- C10 at `convergedCluster`: the extracted subject list already holds both
required subjects, and the submitted list holds them twice, four entries. -/
theorem merge_step_appends_two_subjects_witness :
    Cluster.kube.ClusterRoleBindingsGet GrafanaSystemRBACResourcesName {} convergedCluster =
        (some convergedBinding, none) ∧
      ∃ cfg' opts,
        ((UpsertGrafanaSystemClusterRoleBinding Cluster.kube).exec convergedCluster).calls.filter
            Call.isApply =
            [Call.ClusterRoleBindingsApply cfg' opts] ∧
          cfg'.Subjects =
            [ { Kind := some "ServiceAccount", Name := some "grafana-system",
                Namespace := some "default" },
              { Kind := some "Group", Name := some "system:masters" } ] ++
            [ { Kind := some "ServiceAccount", Name := some "grafana-system",
                Namespace := some "default", APIGroup := some "" },
              { Kind := some "Group", Name := some "system:masters",
                Namespace := none, APIGroup := none } ] ∧
          cfg'.Subjects.length = 2 + 2 :=
  ⟨by decide,
    (merge_step_appends_two_subjects Cluster.kube convergedCluster convergedBinding
      { Kind := some "ClusterRoleBinding", APIVersion := some "rbac.authorization.k8s.io/v1",
        Name := some "grafana-system",
        Subjects :=
          [ { Kind := some "ServiceAccount", Name := some "grafana-system",
              Namespace := some "default" },
            { Kind := some "Group", Name := some "system:masters" } ] }
      (by decide) rfl).imp fun _ h => h.imp fun _ h => ⟨h.1, h.2.1, h.2.2.1⟩⟩

end Apiserver
